import Mathlib

/-!
Shallow embedding of the conference / reconciliation logic of the LoterIA
repository (src/index.tsx).  The source file contains two near-identical
application variants, both embedded here where the claims refer to them:

* Variant A: `GAME_CONFIG`, `SavedGameSet` with an optional `conference`
  record carrying an `isManual` flag, `calculateHits`, `performConference`,
  `handleManualCheck`, `handleUndoManualCheck`, `handleCheckResults`,
  `handleManualSubmit`, and `handleCheckTeimosinha`.
* Variant B: `LOTTERY_CONFIG`-style games with separate `manualCheck` and
  `officialResult` fields, `handleSaveManualCheck`, `handleRemoveManualCheck`,
  and the `DetailPage` teimosinha update effect.

Modelling conventions: JS arrays are lists; all numbers involved are small
non-negative integers, so JS numbers are `Nat`; a `Record<number, number>`
object is an association list updated in place (update an existing key,
otherwise append); a fetch of a contest result is a function
`Nat → Option (List Nat)` with `none` meaning the request failed or the
result is not yet available; `new Date().toISOString()` is an explicit
`now : String` parameter.
-/

namespace LoterIA

/-- The two configured lotteries (keys of `GAME_CONFIG`). -/
inductive GameType where
  | lotofacil
  | megasena
  deriving DecidableEq, Repr

/-- One entry of `GAME_CONFIG` (display fields that the logic never reads,
such as `color`, are omitted). -/
structure GameConfig where
  name : String
  numbersPerGame : Nat
  totalNumbers : Nat
  prizeTiers : List Nat
  deriving DecidableEq, Repr

/-- The `GAME_CONFIG` table of variant A (identical numbers appear in the
`LOTTERY_CONFIG` table of variant B). -/
def GAME_CONFIG : GameType → GameConfig
  | .lotofacil =>
      { name := "Lotofacil", numbersPerGame := 15, totalNumbers := 25,
        prizeTiers := [11, 12, 13, 14, 15] }
  | .megasena =>
      { name := "Mega-Sena", numbersPerGame := 6, totalNumbers := 60,
        prizeTiers := [4, 5, 6] }

/-- Embedding of `calculateHits`:
`game.filter(num => winningNumbers.includes(num)).length`. -/
def calculateHits (game : List Nat) (winningNumbers : List Nat) : Nat :=
  (game.filter (fun num => winningNumbers.contains num)).length

/-- Embedding of the `ConferenceResult` interface of variant A. -/
structure ConferenceResult where
  summary : List (Nat × Nat)
  winningNumbers : List Nat
  checkedAt : String
  isManual : Bool
  deriving DecidableEq, Repr

/-- Embedding of the `SavedGameSet` interface of variant A. -/
structure SavedGameSet where
  id : String
  gameType : GameType
  dateSaved : String
  targetContest : Nat
  generatedGames : List (List Nat)
  conference : Option ConferenceResult
  deriving DecidableEq, Repr

/-- Embedding of a single JS object update `summary[hits] = (summary[hits] || 0) + 1`
on a `Record<number, number>` represented as an association list. -/
def recordIncr : List (Nat × Nat) → Nat → List (Nat × Nat)
  | [], k => [(k, 1)]
  | (k₀, v) :: rest, k =>
      if k₀ = k then (k₀, v + 1) :: rest else (k₀, v) :: recordIncr rest k

/-- Lookup in a `Record<number, number>` association list. -/
def recordLookup : List (Nat × Nat) → Nat → Option Nat
  | [], _ => none
  | (k₀, v) :: rest, k => if k₀ = k then some v else recordLookup rest k

/-- The summary-building loop of `performConference` (and, identically, of
`HitsDistributionSummary` in variant B): for each game compute the hits and,
when the hit count is one of the prize tiers, increment that tier. -/
def buildSummary (games : List (List Nat)) (winningNumbers : List Nat)
    (tiers : List Nat) : List (Nat × Nat) :=
  games.foldl (fun s game =>
    let hits := calculateHits game winningNumbers
    if tiers.contains hits then recordIncr s hits else s) []

/-- Embedding of `performConference` of variant A: replaces any existing
conference record by a freshly computed one. -/
def performConference (gameSet : SavedGameSet) (winningNumbers : List Nat)
    (isManual : Bool) (now : String) : SavedGameSet :=
  { gameSet with conference := some {
      summary := buildSummary gameSet.generatedGames winningNumbers
        (GAME_CONFIG gameSet.gameType).prizeTiers,
      winningNumbers := winningNumbers,
      checkedAt := now,
      isManual := isManual } }

/-- Embedding of `handleManualCheck` of variant A (the guard
`!gameSet || 'type' in gameSet` is enforced by the type `SavedGameSet`):
it calls `performConference` with `isManual = true`, unconditionally. -/
def handleManualCheck (gameSet : SavedGameSet) (numbers : List Nat)
    (now : String) : SavedGameSet :=
  performConference gameSet numbers true now

/-- Embedding of the per-set effect of `handleCheckResults` of variant A:
fetch the target contest; on success confer with `isManual = false`,
otherwise leave the set unchanged. -/
def handleCheckResults (gameSet : SavedGameSet)
    (look : Nat → Option (List Nat)) (now : String) : SavedGameSet :=
  match look gameSet.targetContest with
  | some winningNumbers => performConference gameSet winningNumbers false now
  | none => gameSet

/-- Embedding of `handleUndoManualCheck` of variant A: early return (no
change) when there is no conference record or it is not manual; otherwise
the `conference` field is dropped. -/
def handleUndoManualCheck (gameSet : SavedGameSet) : SavedGameSet :=
  match gameSet.conference with
  | none => gameSet
  | some c => if c.isManual then { gameSet with conference := none } else gameSet

/-- Embedding of `isApiConferenced = gameSet.conference && !gameSet.conference.isManual`. -/
def isApiConferenced (gameSet : SavedGameSet) : Bool :=
  match gameSet.conference with
  | some c => !c.isManual
  | none => false

/-- Embedding of `isManuallyConferenced = gameSet.conference && gameSet.conference.isManual`. -/
def isManuallyConferenced (gameSet : SavedGameSet) : Bool :=
  match gameSet.conference with
  | some c => c.isManual
  | none => false

/-- Embedding of the render condition of the manual-check button in
`HistoryDetailPage` of variant A:
`!isApiConferenced && !showManualInputs && !isManuallyConferenced`. -/
def showManualCheckButton (gameSet : SavedGameSet) (showManualInputs : Bool) : Bool :=
  !isApiConferenced gameSet && !showManualInputs && !isManuallyConferenced gameSet

/-- Outcome of the manual-submission handler: either a validation error
message is displayed, or `onManualCheck` is invoked with the numbers. -/
inductive ManualSubmitOutcome where
  | validationError (msg : String)
  | check (numbers : List Nat)
  deriving DecidableEq, Repr

/-- Embedding of the duplicate-detection loop of `handleManualSubmit`
(and of `handleSaveManualCheck` in variant B): walk the list keeping a
`seen` set and collect every value seen more than once. -/
def findDuplicates (numbers : List Nat) : List Nat :=
  (numbers.foldl (fun acc num =>
      (if acc.1.contains num then acc.1 else acc.1 ++ [num],
       if acc.1.contains num && !acc.2.contains num then acc.2 ++ [num] else acc.2))
    (([], []) : List Nat × List Nat)).2

/-- Embedding of `handleManualSubmit` of variant A.  The input fields are
already-parsed numbers (each text field matches the regex `\d` repeated at
most twice, and `Number` of an empty field is `0`); the handler filters the
in-range values, requires exactly `numbersPerGame` of them, rejects
duplicates, and otherwise hands the numbers to `onManualCheck`. -/
def handleManualSubmit (config : GameConfig) (manualNumbers : List Nat) :
    ManualSubmitOutcome :=
  let numbersAsNumbers :=
    manualNumbers.filter (fun n => decide (0 < n) && decide (n ≤ config.totalNumbers))
  if numbersAsNumbers.length ≠ config.numbersPerGame then
    .validationError "please enter valid numbers"
  else if findDuplicates numbersAsNumbers ≠ [] then
    .validationError "repeated numbers"
  else
    .check numbersAsNumbers

/-- Composition of the presentation-layer validation with the engine call:
what happens to the saved set when the user presses the manual submit
button of variant A. -/
def submitAndApply (config : GameConfig) (gameSet : SavedGameSet)
    (manualNumbers : List Nat) (now : String) : SavedGameSet :=
  match handleManualSubmit config manualNumbers with
  | .check numbers => handleManualCheck gameSet numbers now
  | .validationError _ => gameSet

/-- Status of a teimosinha per-contest record of variant A. -/
inductive TStatus where
  | pending
  | checked
  deriving DecidableEq, Repr

/-- Embedding of the `TeimosinhaConferenceResult` interface of variant A. -/
structure TeimosinhaConferenceResult where
  contest : Nat
  status : TStatus
  winningNumbers : Option (List Nat)
  hits : Option Nat
  deriving DecidableEq, Repr

/-- Embedding of the `SavedTeimosinhaSet` interface of variant A. -/
structure SavedTeimosinhaSet where
  id : String
  gameType : GameType
  dateSaved : String
  startContest : Nat
  numberOfContests : Nat
  theGame : List Nat
  conferenceResults : List TeimosinhaConferenceResult
  deriving DecidableEq, Repr

/-- Value-level embedding of the loop of `handleCheckTeimosinha` of
variant A: records with status `checked` are passed over untouched; a
`pending` record is fetched — on success it becomes `checked` with the
drawn numbers and the hit count and the loop continues, on failure the
loop breaks, leaving the remaining records exactly as they were. -/
def advanceResults (look : Nat → Option (List Nat)) (theGame : List Nat) :
    List TeimosinhaConferenceResult → List TeimosinhaConferenceResult
  | [] => []
  | r :: rest =>
    match r.status with
    | .checked => r :: advanceResults look theGame rest
    | .pending =>
      match look r.contest with
      | some dezenas =>
          { r with winningNumbers := some dezenas,
                   hits := some (calculateHits theGame dezenas),
                   status := .checked } :: advanceResults look theGame rest
      | none => r :: rest

/-- Embedding of `handleCheckTeimosinha` of variant A as a value
transformation (the value the history array holds after the update). -/
def handleCheckTeimosinha (gameSet : SavedTeimosinhaSet)
    (look : Nat → Option (List Nat)) : SavedTeimosinhaSet :=
  { gameSet with conferenceResults :=
      advanceResults look gameSet.theGame gameSet.conferenceResults }

/-! ### Reference-level (store) model of `handleCheckTeimosinha`

The JS handler copies only the array of per-contest records
(`const newConferenceResults = [...gameSet.conferenceResults]`) and then
mutates the record **objects** through the shared references
(`result.status = 'checked'` and so on).  To reason about this aliasing we
model the heap of record objects explicitly: a store is a list of record
objects and a set holds the addresses (indices) of its records. -/

/-- The heap of teimosinha per-contest record objects. -/
abbrev TStore := List TeimosinhaConferenceResult

/-- A teimosinha set as it lives in the JS heap: it holds references
(addresses into the store) to its per-contest record objects. -/
structure TeimosinhaSetRef where
  theGame : List Nat
  conferenceResults : List Nat
  deriving DecidableEq, Repr

/-- The loop of `handleCheckTeimosinha` acting on the store: it walks the
(copied) array of references; a `checked` record is passed over, a
`pending` record is fetched and on success updated **in place** at its
address, and on failure the loop breaks.  (A dangling address cannot occur
in the JS program; it is passed over.) -/
def advanceStore (look : Nat → Option (List Nat)) (theGame : List Nat) :
    TStore → List Nat → TStore
  | store, [] => store
  | store, addr :: rest =>
    match store.get? addr with
    | none => advanceStore look theGame store rest
    | some r =>
      match r.status with
      | .checked => advanceStore look theGame store rest
      | .pending =>
        match look r.contest with
        | some dezenas =>
            advanceStore look theGame
              (store.set addr
                { r with winningNumbers := some dezenas,
                         hits := some (calculateHits theGame dezenas),
                         status := .checked }) rest
        | none => store

/-- Store-level embedding of `handleCheckTeimosinha`: returns the updated
store together with the updated set object; the spread
`{ ...gameSet, conferenceResults: newConferenceResults }` copies the array
of references, so the returned set holds exactly the same addresses. -/
def handleCheckTeimosinhaStore (store : TStore) (gameSet : TeimosinhaSetRef)
    (look : Nat → Option (List Nat)) : TStore × TeimosinhaSetRef :=
  (advanceStore look gameSet.theGame store gameSet.conferenceResults,
   { gameSet with conferenceResults := gameSet.conferenceResults })

/-- What a reader of the original set object observes: its records,
dereferenced in a given store. -/
def viewRecords (store : TStore) (gameSet : TeimosinhaSetRef) :
    List (Option TeimosinhaConferenceResult) :=
  gameSet.conferenceResults.map (fun addr => store.get? addr)

/-! ### Variant B -/

/-- Embedding of one entry of the `results` record of a variant-B
teimosinha saved game (`{ hits: number | null, drawnNumbers?: number[] }`). -/
structure BContestResult where
  hits : Option Nat
  drawnNumbers : Option (List Nat)
  deriving DecidableEq, Repr

/-- Embedding of the JS object update `updatedResults[contest] = r` on a
`Record<number, ...>` represented as an association list. -/
def bSet : List (Nat × BContestResult) → Nat → BContestResult →
    List (Nat × BContestResult)
  | [], c, r => [(c, r)]
  | (c₀, r₀) :: rest, c, r =>
      if c₀ = c then (c₀, r) :: rest else (c₀, r₀) :: bSet rest c r

/-- Embedding of the truthiness test `results[contestNum]?.drawnNumbers`
(an entry with drawn numbers present counts as already checked). -/
def hasDrawn (results : List (Nat × BContestResult)) (c : Nat) : Bool :=
  ((results.lookup c).bind BContestResult.drawnNumbers).isSome

/-- Embedding of the teimosinha fields of a variant-B saved game
(`TeimosinhaSavedGame`): `gameNumbers` is `games[0].numbers`. -/
structure BTeimosinha where
  targetContest : Nat
  teimosinhaContests : Nat
  gameNumbers : List Nat
  results : List (Nat × BContestResult)
  deriving DecidableEq, Repr

/-- Embedding of the teimosinha update effect of `DetailPage` (variant B):
compute the list of contests without drawn numbers, fetch them **all**
(each failure caught individually and dropped), and record every result
that did come back, each with its hit count against the single game. -/
def updateTeimosinhaB (look : Nat → Option (List Nat)) (t : BTeimosinha) :
    BTeimosinha :=
  let contestsToUpdate :=
    ((List.range t.teimosinhaContests).map (fun i => t.targetContest + i)).filter
      (fun c => !hasDrawn t.results c)
  { t with results :=
      contestsToUpdate.foldl (fun acc c =>
        match look c with
        | some dezenas =>
            let drawnNumbers := List.insertionSort (· ≤ ·) dezenas
            bSet acc c
              { hits := some ((t.gameNumbers.filter
                    (fun n => drawnNumbers.contains n)).length),
                drawnNumbers := some drawnNumbers }
        | none => acc) t.results }

/-- Whether a contest row renders as checked in the variant-B teimosinha
detail table (drawn numbers present) rather than as pending
(`Aguardando...`). -/
def bChecked (t : BTeimosinha) (c : Nat) : Bool :=
  hasDrawn t.results c

/-- Embedding of the conference fields of a variant-B plain `SavedGame`. -/
structure BSavedGame where
  id : String
  targetContest : Nat
  games : List (List Nat)
  manualCheck : Option (List Nat)
  officialResult : Option (List Nat)
  deriving DecidableEq, Repr

/-- Embedding of `handleSaveManualCheck` of variant B: parse and keep the
positive entries, require all `numCount` fields filled, reject duplicates,
reject out-of-range values, then store the sorted numbers as the manual
check and **clear `officialResult`**. -/
def handleSaveManualCheckB (numCount totalCount : Nat) (g : BSavedGame)
    (manualNumbers : List Nat) : Except String BSavedGame :=
  let numbers := manualNumbers.filter (fun n => decide (0 < n))
  if numbers.length ≠ numCount then
    .error "please fill in all numbers"
  else if findDuplicates numbers ≠ [] then
    .error "repeated numbers"
  else if numbers.any (fun n => decide (n < 1) || decide (totalCount < n)) then
    .error "numbers out of range"
  else
    .ok { g with manualCheck := some (List.insertionSort (· ≤ ·) numbers),
                 officialResult := none }

/-- Embedding of `handleRemoveManualCheck` of variant B: unconditionally
set `manualCheck` to `null`, leaving `officialResult` untouched. -/
def handleRemoveManualCheckB (g : BSavedGame) : BSavedGame :=
  { g with manualCheck := none }

/-- Embedding of the render condition of the variant-B manual-check UI:
when `game.officialResult` is present the page shows only the locked
message, hiding the whole manual-entry section. -/
def bManualSectionShown (g : BSavedGame) : Bool :=
  !g.officialResult.isSome

/-! ### Concrete fixtures used by witnesses and counterexamples -/

/-- A one-game Mega-Sena combination list. -/
def exGames : List (List Nat) := [[1, 2, 3, 4, 5, 6]]

/-- A manual conference record. -/
def exManualRecord : ConferenceResult :=
  { summary := [], winningNumbers := [1, 2, 3, 4, 5, 7], checkedAt := "t0",
    isManual := true }

/-- An official (API-fetched) conference record. -/
def exOfficialRecord : ConferenceResult :=
  { summary := [(4, 1)], winningNumbers := [1, 2, 3, 4, 50, 60], checkedAt := "t0",
    isManual := false }

/-- A plain saved set with no conference record. -/
def exSetNone : SavedGameSet :=
  { id := "s1", gameType := .megasena, dateSaved := "d0", targetContest := 100,
    generatedGames := exGames, conference := none }

/-- A plain saved set carrying a manual conference record. -/
def exSetManual : SavedGameSet := { exSetNone with conference := some exManualRecord }

/-- A plain saved set carrying an official conference record. -/
def exSetOfficial : SavedGameSet := { exSetNone with conference := some exOfficialRecord }

/-- A variant-A teimosinha set with two pending contests. -/
def exTeimosinha : SavedTeimosinhaSet :=
  { id := "t1", gameType := .megasena, dateSaved := "d0", startContest := 100,
    numberOfContests := 2, theGame := [1, 2, 3, 4, 5, 6],
    conferenceResults :=
      [{ contest := 100, status := .pending, winningNumbers := none, hits := none },
       { contest := 101, status := .pending, winningNumbers := none, hits := none }] }

/-- The `exTeimosinha` set with both contests already checked. -/
def exTeimosinhaDone : SavedTeimosinhaSet :=
  { exTeimosinha with conferenceResults :=
      [{ contest := 100, status := .checked, winningNumbers := some [1, 2, 3, 40, 50, 60],
         hits := some 3 },
       { contest := 101, status := .checked, winningNumbers := some [7, 8, 9, 40, 50, 60],
         hits := some 0 }] }

/-- A store holding a single pending teimosinha record. -/
def exStore : TStore :=
  [{ contest := 100, status := .pending, winningNumbers := none, hits := none }]

/-- A heap-level teimosinha set referencing the record at address 0. -/
def exRefSet : TeimosinhaSetRef :=
  { theGame := [1, 2, 3, 4, 5, 6], conferenceResults := [0] }

/-- A lookup where only contest 100 is available. -/
def exLookOnly100 : Nat → Option (List Nat) :=
  fun c => if c = 100 then some [1, 2, 3, 9, 10, 11] else none

/-- A lookup where only contest 101 is available (100 fails). -/
def exLookOnly101 : Nat → Option (List Nat) :=
  fun c => if c = 101 then some [4, 5, 6, 40, 50, 60] else none

/-- A variant-B teimosinha tracking contests 100 and 101, nothing checked yet. -/
def exBT : BTeimosinha :=
  { targetContest := 100, teimosinhaContests := 2, gameNumbers := [1, 2, 3, 4, 5, 6],
    results := [] }

/-- A variant-B plain saved game carrying an official result. -/
def exBOfficial : BSavedGame :=
  { id := "b1", targetContest := 100, games := exGames,
    manualCheck := none, officialResult := some [1, 2, 3, 4, 50, 60] }

/-- A lookup for which no contest is available. -/
def exLookNone : Nat → Option (List Nat) := fun _ => none

/-! ### Named forms of the loop bodies, for the proofs below

These are the same functions as the lambdas inside `findDuplicates` and
`buildSummary`; naming them lets the induction proofs rewrite one loop
iteration at a time. -/

/-- One iteration of the duplicate-detection loop of `findDuplicates`. -/
def dupStep (acc : List Nat × List Nat) (num : Nat) : List Nat × List Nat :=
  (if acc.1.contains num then acc.1 else acc.1 ++ [num],
   if acc.1.contains num && !acc.2.contains num then acc.2 ++ [num] else acc.2)

/-- One iteration of the summary-building loop of `buildSummary`. -/
def summaryStep (winningNumbers : List Nat) (tiers : List Nat)
    (s : List (Nat × Nat)) (game : List Nat) : List (Nat × Nat) :=
  let hits := calculateHits game winningNumbers
  if tiers.contains hits then recordIncr s hits else s

/-- Specification-side count: how many of the given combinations score
exactly `k` hits against `W`. -/
def tierCount (W : List Nat) (k : Nat) (games : List (List Nat)) : Nat :=
  (games.filter (fun g => decide (calculateHits g W = k))).length

/-! ## Helper lemmas -/

theorem calculateHits_filter_mem (C W : List Nat) :
    calculateHits C W = (C.filter (fun n => decide (n ∈ W))).length := by
  unfold calculateHits
  congr 1
  apply List.filter_congr
  intro a _
  simp [List.elem_iff]

theorem calculateHits_card (C W : List Nat) (h : C.Nodup) :
    calculateHits C W = (C.toFinset ∩ W.toFinset).card := by
  rw [calculateHits_filter_mem]
  have hnd : (C.filter (fun n => decide (n ∈ W))).Nodup := h.filter _
  rw [← List.toFinset_card_of_nodup hnd, List.toFinset_filter]
  congr 1
  rw [← Finset.filter_mem_eq_inter]
  apply Finset.filter_congr
  intro a _
  simp

theorem calculateHits_perm (C W C₂ W₂ : List Nat) (hC : C₂.Perm C) (hW : W₂.Perm W) :
    calculateHits C₂ W₂ = calculateHits C W := by
  rw [calculateHits_filter_mem, calculateHits_filter_mem]
  have h1 : C₂.filter (fun n => decide (n ∈ W₂)) = C₂.filter (fun n => decide (n ∈ W)) := by
    apply List.filter_congr
    intro a _
    simp [hW.mem_iff]
  rw [h1]
  exact (hC.filter _).length_eq

theorem calculateHits_dedup (C W : List Nat) :
    calculateHits C W.dedup = calculateHits C W := by
  rw [calculateHits_filter_mem, calculateHits_filter_mem]
  congr 1
  apply List.filter_congr
  intro a _
  simp

theorem findDuplicates_eq_foldl (ns : List Nat) :
    findDuplicates ns = (ns.foldl dupStep ([], [])).2 := rfl

theorem findDuplicates_aux (ns : List Nat) (seen dups : List Nat) :
    (ns.foldl dupStep (seen, dups)).2 = [] ↔
    (dups = [] ∧ ns.Nodup ∧ ∀ n ∈ ns, n ∉ seen) := by
  induction ns generalizing seen dups with
  | nil => simp
  | cons n ns ih =>
    simp only [List.foldl_cons]
    by_cases hn : n ∈ seen
    · have hc : seen.contains n = true := List.elem_iff.mpr hn
      by_cases hd : n ∈ dups
      · have hdc : dups.contains n = true := List.elem_iff.mpr hd
        have hdne : dups ≠ [] := List.ne_nil_of_mem hd
        rw [show dupStep (seen, dups) n = (seen, dups) from by
          simp [dupStep, hc, hdc]
          exact ⟨hn, fun _ => hd⟩]
        rw [ih]
        constructor
        · rintro ⟨h1, -, -⟩
          exact absurd h1 hdne
        · rintro ⟨-, -, h3⟩
          exact absurd hn (h3 n (List.mem_cons_self n ns))
      · have hdc : dups.contains n = false := by
          rw [← Bool.not_eq_true]
          intro h
          exact hd (List.elem_iff.mp h)
        rw [show dupStep (seen, dups) n = (seen, dups ++ [n]) from by
          simp [dupStep, hc, hdc]
          exact ⟨hn, hd⟩]
        rw [ih]
        constructor
        · rintro ⟨h1, -, -⟩
          exact absurd h1 (by simp)
        · rintro ⟨-, -, h3⟩
          exact absurd hn (h3 n (List.mem_cons_self n ns))
    · have hc : seen.contains n = false := by
        rw [← Bool.not_eq_true]
        intro h
        exact hn (List.elem_iff.mp h)
      rw [show dupStep (seen, dups) n = (seen ++ [n], dups) from by
        simp [dupStep, hc]
        exact ⟨hn, fun h => absurd h hn⟩]
      rw [ih]
      constructor
      · rintro ⟨h1, h2, h3⟩
        refine ⟨h1, List.nodup_cons.mpr ⟨?_, h2⟩, ?_⟩
        · intro hmem
          exact h3 n hmem (List.mem_append_right _ (List.mem_singleton_self n))
        · intro m hm
          rcases List.mem_cons.mp hm with rfl | hm₂
          · exact hn
          · exact fun hs => h3 m hm₂ (List.mem_append_left _ hs)
      · rintro ⟨h1, h2, h3⟩
        obtain ⟨hnin, h2₂⟩ := List.nodup_cons.mp h2
        refine ⟨h1, h2₂, ?_⟩
        intro m hm hmem
        rcases List.mem_append.mp hmem with hs | hone
        · exact h3 m (List.mem_cons_of_mem n hm) hs
        · exact hnin (List.mem_singleton.mp hone ▸ hm)

theorem findDuplicates_eq_nil (ns : List Nat) : findDuplicates ns = [] ↔ ns.Nodup := by
  rw [findDuplicates_eq_foldl, findDuplicates_aux]
  simp

theorem handleManualSubmit_rejects (config : GameConfig) (mns : List Nat)
    (hlen : mns.length = config.numbersPerGame)
    (hbad : ¬ (mns.Nodup ∧ ∀ n ∈ mns, 1 ≤ n ∧ n ≤ config.totalNumbers)) :
    ∃ msg, handleManualSubmit config mns = .validationError msg := by
  by_cases hall : ∀ n ∈ mns, (decide (0 < n) && decide (n ≤ config.totalNumbers)) = true
  · have hf : mns.filter (fun n => decide (0 < n) && decide (n ≤ config.totalNumbers)) = mns :=
      List.filter_eq_self.mpr hall
    have hnd : ¬ mns.Nodup := by
      intro hnd
      apply hbad
      refine ⟨hnd, ?_⟩
      intro n hn
      have hb := hall n hn
      simp only [Bool.and_eq_true, decide_eq_true_eq] at hb
      exact ⟨hb.1, hb.2⟩
    have hdup : findDuplicates mns ≠ [] := by
      rw [Ne, findDuplicates_eq_nil]
      exact hnd
    refine ⟨"repeated numbers", ?_⟩
    simp only [handleManualSubmit, hf]
    rw [if_neg (by simp [hlen]), if_pos hdup]
  · push_neg at hall
    obtain ⟨n, hn, hbn⟩ := hall
    have hlt : (mns.filter (fun n => decide (0 < n) && decide (n ≤ config.totalNumbers))).length
        < mns.length := by
      rw [List.length_filter_lt_length_iff_exists]
      exact ⟨n, hn, by simpa using hbn⟩
    have hne : (mns.filter (fun n => decide (0 < n) && decide (n ≤ config.totalNumbers))).length
        ≠ config.numbersPerGame := by
      rw [hlen] at hlt
      omega
    refine ⟨"please enter valid numbers", ?_⟩
    simp only [handleManualSubmit]
    rw [if_pos hne]

theorem advanceResults_cons_checked (look : Nat → Option (List Nat)) (g : List Nat)
    (r : TeimosinhaConferenceResult) (rest : List TeimosinhaConferenceResult)
    (h : r.status = .checked) :
    advanceResults look g (r :: rest) = r :: advanceResults look g rest := by
  conv_lhs => rw [advanceResults]
  rw [h]

theorem advanceResults_cons_some (look : Nat → Option (List Nat)) (g : List Nat)
    (r : TeimosinhaConferenceResult) (rest : List TeimosinhaConferenceResult)
    (dez : List Nat) (h : r.status = .pending) (hl : look r.contest = some dez) :
    advanceResults look g (r :: rest) =
      { r with winningNumbers := some dez, hits := some (calculateHits g dez),
               status := .checked } :: advanceResults look g rest := by
  conv_lhs => rw [advanceResults]
  rw [h, hl]

theorem advanceResults_cons_none (look : Nat → Option (List Nat)) (g : List Nat)
    (r : TeimosinhaConferenceResult) (rest : List TeimosinhaConferenceResult)
    (h : r.status = .pending) (hl : look r.contest = none) :
    advanceResults look g (r :: rest) = r :: rest := by
  conv_lhs => rw [advanceResults]
  rw [h, hl]

theorem advanceResults_checked_get (look : Nat → Option (List Nat)) (g : List Nat) :
    ∀ (rs : List TeimosinhaConferenceResult) (i : Nat) (r : TeimosinhaConferenceResult),
      rs.get? i = some r → r.status = .checked →
      (advanceResults look g rs).get? i = some r := by
  intro rs
  induction rs with
  | nil =>
    intro i r h _
    simp at h
  | cons r₀ rest ih =>
    intro i r hi hr
    cases hs : r₀.status with
    | checked =>
      rw [advanceResults_cons_checked look g r₀ rest hs]
      cases i with
      | zero => exact hi
      | succ i =>
        simp only [List.get?_cons_succ] at hi ⊢
        exact ih i r hi hr
    | pending =>
      cases hl : look r₀.contest with
      | some dez =>
        rw [advanceResults_cons_some look g r₀ rest dez hs hl]
        cases i with
        | zero =>
          simp only [List.get?_cons_zero] at hi
          injection hi with hi
          rw [← hi, hs] at hr
          exact absurd hr (by simp)
        | succ i =>
          simp only [List.get?_cons_succ] at hi ⊢
          exact ih i r hi hr
      | none =>
        rw [advanceResults_cons_none look g r₀ rest hs hl]
        exact hi

theorem advanceResults_all_checked (look : Nat → Option (List Nat)) (g : List Nat) :
    ∀ rs : List TeimosinhaConferenceResult,
      (∀ r ∈ rs, r.status = .checked) → advanceResults look g rs = rs := by
  intro rs
  induction rs with
  | nil =>
    intro _
    rfl
  | cons r₀ rest ih =>
    intro h
    rw [advanceResults_cons_checked look g r₀ rest (h r₀ (List.mem_cons_self r₀ rest))]
    rw [ih (fun r hr => h r (List.mem_cons_of_mem r₀ hr))]

theorem advanceResults_gapfree (look : Nat → Option (List Nat)) (g : List Nat) :
    ∀ (rs : List TeimosinhaConferenceResult) (i j : Nat)
      (rj rj' : TeimosinhaConferenceResult),
      i < j →
      rs.get? j = some rj → rj.status = .pending →
      (advanceResults look g rs).get? j = some rj' → rj'.status = .checked →
      ∃ ri', (advanceResults look g rs).get? i = some ri' ∧ ri'.status = .checked := by
  intro rs
  induction rs with
  | nil =>
    intro i j rj rj' _ hj _ _ _
    simp at hj
  | cons r₀ rest ih =>
    intro i j rj rj' hij hj hpend hj' hchk
    cases hs : r₀.status with
    | checked =>
      rw [advanceResults_cons_checked look g r₀ rest hs] at hj' ⊢
      cases j with
      | zero => omega
      | succ j =>
        cases i with
        | zero => exact ⟨r₀, rfl, hs⟩
        | succ i =>
          simp only [List.get?_cons_succ] at hj hj' ⊢
          exact ih i j rj rj' (by omega) hj hpend hj' hchk
    | pending =>
      cases hl : look r₀.contest with
      | some dez =>
        rw [advanceResults_cons_some look g r₀ rest dez hs hl] at hj' ⊢
        cases j with
        | zero => omega
        | succ j =>
          cases i with
          | zero => exact ⟨_, rfl, rfl⟩
          | succ i =>
            simp only [List.get?_cons_succ] at hj hj' ⊢
            exact ih i j rj rj' (by omega) hj hpend hj' hchk
      | none =>
        rw [advanceResults_cons_none look g r₀ rest hs hl] at hj'
        rw [hj] at hj'
        injection hj' with hj'
        rw [← hj', hpend] at hchk
        exact absurd hchk (by simp)

theorem advanceResults_stops (look : Nat → Option (List Nat)) (g : List Nat) :
    ∀ (front : List TeimosinhaConferenceResult) (r₀ : TeimosinhaConferenceResult)
      (rest : List TeimosinhaConferenceResult),
      (∀ r ∈ front, r.status = .checked) →
      r₀.status = .pending → look r₀.contest = none →
      advanceResults look g (front ++ r₀ :: rest) = front ++ r₀ :: rest := by
  intro front
  induction front with
  | nil =>
    intro r₀ rest _ hp hl
    simp only [List.nil_append]
    exact advanceResults_cons_none look g r₀ rest hp hl
  | cons f front ih =>
    intro r₀ rest hf hp hl
    simp only [List.cons_append]
    rw [advanceResults_cons_checked look g f (front ++ r₀ :: rest)
      (hf f (List.mem_cons_self f front))]
    rw [ih r₀ rest (fun r hr => hf r (List.mem_cons_of_mem f hr)) hp hl]

theorem buildSummary_eq_foldl (games : List (List Nat)) (W tiers : List Nat) :
    buildSummary games W tiers = games.foldl (summaryStep W tiers) [] := rfl

theorem recordLookup_recordIncr (m : List (Nat × Nat)) (k j : Nat) :
    recordLookup (recordIncr m j) k =
      if k = j then some ((recordLookup m k).getD 0 + 1) else recordLookup m k := by
  induction m with
  | nil =>
    by_cases hkj : k = j
    · subst hkj
      simp [recordIncr, recordLookup]
    · have hjk : ¬ j = k := fun h => hkj h.symm
      simp [recordIncr, recordLookup, hkj, hjk]
  | cons p rest ih =>
    obtain ⟨k₀, v⟩ := p
    by_cases h₀j : k₀ = j
    · subst h₀j
      by_cases hk₀ : k = k₀
      · subst hk₀
        simp [recordIncr, recordLookup]
      · have h₀k : ¬ k₀ = k := fun h => hk₀ h.symm
        simp [recordIncr, recordLookup, hk₀, h₀k]
    · by_cases h₀k : k₀ = k
      · subst h₀k
        simp [recordIncr, recordLookup, h₀j]
      · simp [recordIncr, recordLookup, h₀j, h₀k, ih]

theorem recordIncr_sum (m : List (Nat × Nat)) (j : Nat) :
    ((recordIncr m j).map Prod.snd).sum = ((m.map Prod.snd).sum) + 1 := by
  induction m with
  | nil => simp [recordIncr]
  | cons p rest ih =>
    obtain ⟨k₀, v⟩ := p
    by_cases h : k₀ = j
    · simp [recordIncr, h]
      omega
    · simp [recordIncr, h, ih]
      omega

theorem recordIncr_inv (tiers : List Nat) (m : List (Nat × Nat)) (j : Nat)
    (hj : j ∈ tiers) (hm : ∀ kv ∈ m, kv.1 ∈ tiers ∧ 1 ≤ kv.2) :
    ∀ kv ∈ recordIncr m j, kv.1 ∈ tiers ∧ 1 ≤ kv.2 := by
  induction m with
  | nil =>
    intro kv hkv
    simp [recordIncr] at hkv
    subst hkv
    exact ⟨hj, le_refl 1⟩
  | cons p rest ih =>
    obtain ⟨k₀, v⟩ := p
    intro kv hkv
    by_cases h : k₀ = j
    · simp only [recordIncr, if_pos h] at hkv
      rcases List.mem_cons.mp hkv with rfl | hkv₂
      · have hh := hm (k₀, v) (List.mem_cons_self _ _)
        exact ⟨hh.1, by omega⟩
      · exact hm kv (List.mem_cons_of_mem _ hkv₂)
    · simp only [recordIncr, if_neg h] at hkv
      rcases List.mem_cons.mp hkv with rfl | hkv₂
      · exact hm (k₀, v) (List.mem_cons_self _ _)
      · exact ih (fun kv h => hm kv (List.mem_cons_of_mem _ h)) kv hkv₂

theorem foldl_lookup_some (W tiers : List Nat) (k : Nat) (hk : k ∈ tiers) :
    ∀ (games : List (List Nat)) (m : List (Nat × Nat)) (v : Nat),
      recordLookup m k = some v →
      recordLookup (games.foldl (summaryStep W tiers) m) k =
        some (v + tierCount W k games) := by
  intro games
  induction games with
  | nil =>
    intro m v hm
    simpa [tierCount] using hm
  | cons g games ih =>
    intro m v hm
    simp only [List.foldl_cons]
    by_cases hg : calculateHits g W = k
    · have hc : tiers.contains (calculateHits g W) = true := by
        rw [hg]
        exact List.elem_iff.mpr hk
      have hstep : summaryStep W tiers m g = recordIncr m k := by
        rw [summaryStep, if_pos hc, hg]
      rw [hstep]
      have hlook : recordLookup (recordIncr m k) k = some (v + 1) := by
        rw [recordLookup_recordIncr]
        simp [hm]
      rw [ih (recordIncr m k) (v + 1) hlook]
      have hcnt : tierCount W k (g :: games) = tierCount W k games + 1 := by
        simp [tierCount, List.filter_cons, hg]
      rw [hcnt]
      congr 1
      omega
    · have hstep : recordLookup (summaryStep W tiers m g) k = recordLookup m k := by
        by_cases hc : tiers.contains (calculateHits g W) = true
        · have hkg : ¬ k = calculateHits g W := fun h => hg h.symm
          rw [summaryStep, if_pos hc, recordLookup_recordIncr, if_neg hkg]
        · rw [summaryStep, if_neg hc]
      have hm₂ : recordLookup (summaryStep W tiers m g) k = some v := by
        rw [hstep]
        exact hm
      rw [ih _ v hm₂]
      have hcnt : tierCount W k (g :: games) = tierCount W k games := by
        simp [tierCount, List.filter_cons, hg]
      rw [hcnt]

theorem foldl_lookup_none (W tiers : List Nat) (k : Nat) (hk : k ∈ tiers) :
    ∀ (games : List (List Nat)) (m : List (Nat × Nat)),
      recordLookup m k = none →
      recordLookup (games.foldl (summaryStep W tiers) m) k =
        if tierCount W k games = 0 then none else some (tierCount W k games) := by
  intro games
  induction games with
  | nil =>
    intro m hm
    simpa [tierCount] using hm
  | cons g games ih =>
    intro m hm
    simp only [List.foldl_cons]
    by_cases hg : calculateHits g W = k
    · have hc : tiers.contains (calculateHits g W) = true := by
        rw [hg]
        exact List.elem_iff.mpr hk
      have hstep : summaryStep W tiers m g = recordIncr m k := by
        rw [summaryStep, if_pos hc, hg]
      rw [hstep]
      have hlook : recordLookup (recordIncr m k) k = some 1 := by
        rw [recordLookup_recordIncr]
        simp [hm]
      rw [foldl_lookup_some W tiers k hk games (recordIncr m k) 1 hlook]
      have hcnt : tierCount W k (g :: games) = tierCount W k games + 1 := by
        simp [tierCount, List.filter_cons, hg]
      rw [hcnt]
      have hne : ¬ (tierCount W k games + 1 = 0) := by omega
      rw [if_neg hne]
      congr 1
      omega
    · have hstep : recordLookup (summaryStep W tiers m g) k = recordLookup m k := by
        by_cases hc : tiers.contains (calculateHits g W) = true
        · have hkg : ¬ k = calculateHits g W := fun h => hg h.symm
          rw [summaryStep, if_pos hc, recordLookup_recordIncr, if_neg hkg]
        · rw [summaryStep, if_neg hc]
      have hm₂ : recordLookup (summaryStep W tiers m g) k = none := by
        rw [hstep]
        exact hm
      rw [ih _ hm₂]
      have hcnt : tierCount W k (g :: games) = tierCount W k games := by
        simp [tierCount, List.filter_cons, hg]
      rw [hcnt]

theorem foldl_lookup_notmem (W tiers : List Nat) (k : Nat) (hk : k ∉ tiers) :
    ∀ (games : List (List Nat)) (m : List (Nat × Nat)),
      recordLookup (games.foldl (summaryStep W tiers) m) k = recordLookup m k := by
  intro games
  induction games with
  | nil =>
    intro m
    rfl
  | cons g games ih =>
    intro m
    simp only [List.foldl_cons]
    rw [ih]
    by_cases hc : tiers.contains (calculateHits g W) = true
    · have hmem : calculateHits g W ∈ tiers := List.elem_iff.mp hc
      have hkg : ¬ k = calculateHits g W := by
        rintro rfl
        exact hk hmem
      rw [summaryStep, if_pos hc, recordLookup_recordIncr, if_neg hkg]
    · rw [summaryStep, if_neg hc]

theorem foldl_summary_inv (W tiers : List Nat) :
    ∀ (games : List (List Nat)) (m : List (Nat × Nat)),
      (∀ kv ∈ m, kv.1 ∈ tiers ∧ 1 ≤ kv.2) →
      ∀ kv ∈ games.foldl (summaryStep W tiers) m, kv.1 ∈ tiers ∧ 1 ≤ kv.2 := by
  intro games
  induction games with
  | nil =>
    intro m hm
    exact hm
  | cons g games ih =>
    intro m hm
    simp only [List.foldl_cons]
    apply ih
    by_cases hc : tiers.contains (calculateHits g W) = true
    · rw [summaryStep, if_pos hc]
      exact recordIncr_inv tiers m (calculateHits g W) (List.elem_iff.mp hc) hm
    · rw [summaryStep, if_neg hc]
      exact hm

theorem foldl_summary_sum (W tiers : List Nat) :
    ∀ (games : List (List Nat)) (m : List (Nat × Nat)),
      (((games.foldl (summaryStep W tiers) m).map Prod.snd).sum) =
        ((m.map Prod.snd).sum) +
          (games.filter (fun g => tiers.contains (calculateHits g W))).length := by
  intro games
  induction games with
  | nil =>
    intro m
    simp
  | cons g games ih =>
    intro m
    simp only [List.foldl_cons]
    rw [ih]
    by_cases hc : tiers.contains (calculateHits g W) = true
    · rw [summaryStep, if_pos hc]
      rw [recordIncr_sum]
      simp only [List.filter_cons, hc, if_true, List.length_cons]
      omega
    · rw [summaryStep, if_neg hc]
      have hcf : tiers.contains (calculateHits g W) = false := by
        simpa using hc
      simp only [List.filter_cons, hcf, Bool.false_eq_true, if_false]

theorem advanceStore_cons_dangling (look : Nat → Option (List Nat)) (g : List Nat)
    (store : TStore) (addr : Nat) (rest : List Nat) (h : store.get? addr = none) :
    advanceStore look g store (addr :: rest) = advanceStore look g store rest := by
  conv_lhs => rw [advanceStore]
  simp only [h]

theorem advanceStore_cons_checked (look : Nat → Option (List Nat)) (g : List Nat)
    (store : TStore) (addr : Nat) (rest : List Nat) (r : TeimosinhaConferenceResult)
    (h : store.get? addr = some r) (hs : r.status = .checked) :
    advanceStore look g store (addr :: rest) = advanceStore look g store rest := by
  conv_lhs => rw [advanceStore]
  simp only [h, hs]

theorem advanceStore_cons_some (look : Nat → Option (List Nat)) (g : List Nat)
    (store : TStore) (addr : Nat) (rest : List Nat) (r : TeimosinhaConferenceResult)
    (dez : List Nat) (h : store.get? addr = some r) (hs : r.status = .pending)
    (hl : look r.contest = some dez) :
    advanceStore look g store (addr :: rest) =
      advanceStore look g
        (store.set addr
          { r with winningNumbers := some dez, hits := some (calculateHits g dez),
                   status := .checked }) rest := by
  conv_lhs => rw [advanceStore]
  simp only [h, hs, hl]

theorem advanceStore_cons_break (look : Nat → Option (List Nat)) (g : List Nat)
    (store : TStore) (addr : Nat) (rest : List Nat) (r : TeimosinhaConferenceResult)
    (h : store.get? addr = some r) (hs : r.status = .pending)
    (hl : look r.contest = none) :
    advanceStore look g store (addr :: rest) = store := by
  conv_lhs => rw [advanceStore]
  simp only [h, hs, hl]

theorem advanceStore_frame (look : Nat → Option (List Nat)) (g : List Nat) :
    ∀ (addrs : List Nat) (store : TStore) (a : Nat), a ∉ addrs →
      (advanceStore look g store addrs).get? a = store.get? a := by
  intro addrs
  induction addrs with
  | nil =>
    intro store a _
    rfl
  | cons addr rest ih =>
    intro store a ha
    have hne : a ≠ addr := fun h => ha (h ▸ List.mem_cons_self addr rest)
    have hrest : a ∉ rest := fun h => ha (List.mem_cons_of_mem addr h)
    cases h : store.get? addr with
    | none =>
      rw [advanceStore_cons_dangling look g store addr rest h]
      exact ih store a hrest
    | some r =>
      cases hs : r.status with
      | checked =>
        rw [advanceStore_cons_checked look g store addr rest r h hs]
        exact ih store a hrest
      | pending =>
        cases hl : look r.contest with
        | some dez =>
          rw [advanceStore_cons_some look g store addr rest r dez h hs hl]
          rw [ih _ a hrest]
          rw [List.get?_set_ne _ _ (fun hh => hne hh.symm)]
        | none =>
          rw [advanceStore_cons_break look g store addr rest r h hs hl]

theorem advanceStore_checked_stable (look : Nat → Option (List Nat)) (g : List Nat) :
    ∀ (addrs : List Nat) (store : TStore) (a : Nat) (r : TeimosinhaConferenceResult),
      store.get? a = some r → r.status = .checked →
      (advanceStore look g store addrs).get? a = some r := by
  intro addrs
  induction addrs with
  | nil =>
    intro store a r hr _
    exact hr
  | cons addr rest ih =>
    intro store a r hr hrc
    cases h : store.get? addr with
    | none =>
      rw [advanceStore_cons_dangling look g store addr rest h]
      exact ih store a r hr hrc
    | some r₀ =>
      cases hs : r₀.status with
      | checked =>
        rw [advanceStore_cons_checked look g store addr rest r₀ h hs]
        exact ih store a r hr hrc
      | pending =>
        cases hl : look r₀.contest with
        | some dez =>
          rw [advanceStore_cons_some look g store addr rest r₀ dez h hs hl]
          have hne : a ≠ addr := by
            rintro rfl
            rw [hr] at h
            injection h with h
            rw [← h, hrc] at hs
            exact absurd hs (by simp)
          apply ih
          · rw [List.get?_set_ne _ _ (fun hh => hne hh.symm)]
            exact hr
          · exact hrc
        | none =>
          rw [advanceStore_cons_break look g store addr rest r₀ h hs hl]
          exact hr

/-! ## Claim theorems -/

/-- Claim C1, counterexample: on a saved set that already carries an
official conference record, `handleManualCheck` does not fail and does not
return the set unchanged — it replaces the official record with a manual
one computed from the entered numbers. -/
theorem manualCheck_overrides_official_cex :
    handleManualCheck exSetOfficial [10, 20, 30, 40, 50, 60] "t1" ≠ exSetOfficial ∧
    (handleManualCheck exSetOfficial [10, 20, 30, 40, 50, 60] "t1").conference =
      some { summary := [], winningNumbers := [10, 20, 30, 40, 50, 60],
             checkedAt := "t1", isManual := true } := by
  constructor
  · decide
  · rfl

/-- Claim C1, amended: the engine has no `ConferenceLocked` guard —
`handleManualCheck` applies the manual conference unconditionally, replacing
an existing official record with a manual one (and variant B additionally
clears `officialResult`); the only guard is in the UI, which hides the
manual-entry controls when an official record is present. -/
theorem manualCheck_unconditional_ui_gated (S : SavedGameSet) (c : ConferenceResult)
    (W : List Nat) (now : String) (hc : S.conference = some c)
    (hm : c.isManual = false) :
    handleManualCheck S W now =
      { S with conference := some {
          summary := buildSummary S.generatedGames W (GAME_CONFIG S.gameType).prizeTiers,
          winningNumbers := W, checkedAt := now, isManual := true } } ∧
    (∀ b, showManualCheckButton S b = false) ∧
    (∀ g : BSavedGame, g.officialResult.isSome = true → bManualSectionShown g = false) ∧
    (∀ (numCount totalCount : Nat) (g out : BSavedGame) (mns : List Nat),
       handleSaveManualCheckB numCount totalCount g mns = .ok out →
       out.officialResult = none ∧ out.manualCheck.isSome = true) := by
  refine ⟨rfl, ?_, ?_, ?_⟩
  · intro b
    simp [showManualCheckButton, isApiConferenced, hc, hm]
  · intro g hg
    simp [bManualSectionShown, hg]
  · intro nC tC g out mns h
    simp only [handleSaveManualCheckB] at h
    split at h
    · simp at h
    · split at h
      · simp at h
      · split at h
        · simp at h
        · injection h with h
          subst h
          exact ⟨rfl, rfl⟩

/-- Claim C1, witness for the amended theorem at a concrete officially
conferred set. -/
theorem manualCheck_unconditional_ui_gated_witness :
    showManualCheckButton exSetOfficial false = false :=
  (manualCheck_unconditional_ui_gated exSetOfficial exOfficialRecord
    [7, 8, 9, 10, 11, 12] "t2" rfl rfl).2.1 false

/-- Claim C2, counterexample: the variant-B teimosinha update effect fetches
all unchecked contests concurrently and records every available one, so with
contest 100 unavailable and contest 101 available it marks 101 checked while
100 stays pending — the advancement of this program is not gap-free. -/
theorem teimosinhaB_gap_cex :
    bChecked (updateTeimosinhaB exLookOnly101 exBT) 101 = true ∧
    bChecked (updateTeimosinhaB exLookOnly101 exBT) 100 = false := by
  constructor
  · decide
  · decide

/-- Claim C2, amended (restricted to `handleCheckTeimosinha`, the variant-A
advancement): it never newly marks a record checked while an earlier record
stays pending, and when the first pending record's contest is unavailable it
stops and returns the whole set unchanged; the variant-B `DetailPage` effect
does not have this property. -/
theorem handleCheckTeimosinha_gapfree_stops :
    (∀ (s : SavedTeimosinhaSet) (look : Nat → Option (List Nat)) (i j : Nat)
       (rj rj' : TeimosinhaConferenceResult),
       i < j →
       s.conferenceResults.get? j = some rj → rj.status = .pending →
       (handleCheckTeimosinha s look).conferenceResults.get? j = some rj' →
       rj'.status = .checked →
       ∃ ri', (handleCheckTeimosinha s look).conferenceResults.get? i = some ri' ∧
         ri'.status = .checked) ∧
    (∀ (s : SavedTeimosinhaSet) (look : Nat → Option (List Nat))
       (front : List TeimosinhaConferenceResult) (r₀ : TeimosinhaConferenceResult)
       (rest : List TeimosinhaConferenceResult),
       s.conferenceResults = front ++ r₀ :: rest →
       (∀ r ∈ front, r.status = .checked) →
       r₀.status = .pending → look r₀.contest = none →
       handleCheckTeimosinha s look = s) := by
  constructor
  · intro s look i j rj rj' hij hj hpend hj' hchk
    exact advanceResults_gapfree look s.theGame s.conferenceResults i j rj rj'
      hij hj hpend hj' hchk
  · intro s look front r₀ rest hsplit hfront hp hl
    unfold handleCheckTeimosinha
    rw [hsplit, advanceResults_stops look s.theGame front r₀ rest hfront hp hl, ← hsplit]

/-- Claim C2, witness: the stop property applied to a concrete two-contest
teimosinha whose first contest is unavailable. -/
theorem handleCheckTeimosinha_gapfree_stops_witness :
    handleCheckTeimosinha exTeimosinha exLookNone = exTeimosinha :=
  handleCheckTeimosinha_gapfree_stops.2 exTeimosinha exLookNone []
    { contest := 100, status := .pending, winningNumbers := none, hits := none }
    [{ contest := 101, status := .pending, winningNumbers := none, hits := none }]
    rfl (by intro r hr; exact absurd hr (List.not_mem_nil r)) rfl rfl

/-- Claim C3: on a saved set carrying a manual conference record, an
official conference (`performConference` with `isManual = false`) always
succeeds and replaces the record wholesale: the result's record has
`isManual = false`, the given winning numbers, and a summary freshly
computed from them, with no dependence on the prior manual record. -/
theorem performConference_official_overrides_manual (S : SavedGameSet)
    (c : ConferenceResult) (W : List Nat) (now : String)
    (hc : S.conference = some c) (hm : c.isManual = true) :
    performConference S W false now =
      { S with conference := some {
          summary := buildSummary S.generatedGames W (GAME_CONFIG S.gameType).prizeTiers,
          winningNumbers := W, checkedAt := now, isManual := false } } := rfl

/-- Claim C3, witness at a concrete manually conferred set. -/
theorem performConference_official_overrides_manual_witness :
    performConference exSetManual [4, 5, 6, 7, 8, 9] false "t1" =
      { exSetManual with conference := some {
          summary := buildSummary exSetManual.generatedGames [4, 5, 6, 7, 8, 9]
            (GAME_CONFIG exSetManual.gameType).prizeTiers,
          winningNumbers := [4, 5, 6, 7, 8, 9], checkedAt := "t1",
          isManual := false } } :=
  performConference_official_overrides_manual exSetManual exManualRecord
    [4, 5, 6, 7, 8, 9] "t1" rfl rfl

/-- Claim C4: for a duplicate-free combination, `calculateHits` equals the
cardinality of the set intersection with the winning numbers; it is
invariant under reordering of both inputs, and duplicates in the winning
numbers never double-count a combination number. -/
theorem calculateHits_intersection_spec (C W : List Nat) (h : C.Nodup) :
    calculateHits C W = (C.toFinset ∩ W.toFinset).card ∧
    (∀ C₂ W₂ : List Nat, C₂.Perm C → W₂.Perm W → calculateHits C₂ W₂ = calculateHits C W) ∧
    calculateHits C W.dedup = calculateHits C W :=
  ⟨calculateHits_card C W h,
   fun C₂ W₂ hC hW => calculateHits_perm C W C₂ W₂ hC hW,
   calculateHits_dedup C W⟩

/-- Claim C4, witness at a concrete combination and winning list with a
duplicate. -/
theorem calculateHits_intersection_spec_witness :
    calculateHits [1, 2, 3] [3, 3, 2] =
      (([1, 2, 3] : List Nat).toFinset ∩ ([3, 3, 2] : List Nat).toFinset).card ∧
    calculateHits [1, 2, 3] ([3, 3, 2] : List Nat).dedup =
      calculateHits [1, 2, 3] [3, 3, 2] :=
  ⟨(calculateHits_intersection_spec [1, 2, 3] [3, 3, 2] (by decide)).1,
   (calculateHits_intersection_spec [1, 2, 3] [3, 3, 2] (by decide)).2.2⟩

/-- Claim C5, counterexample: the engine function itself does not
re-validate — handed only 5 numbers for a 6-number Mega-Sena set,
`handleManualCheck` happily records them instead of failing and leaving
the set unchanged. -/
theorem engine_no_revalidation_cex :
    handleManualCheck exSetNone [1, 2, 3, 4, 5] "t1" ≠ exSetNone ∧
    (handleManualCheck exSetNone [1, 2, 3, 4, 5] "t1").conference =
      some { summary := [(5, 1)], winningNumbers := [1, 2, 3, 4, 5], checkedAt := "t1",
             isManual := true } := by
  constructor
  · decide
  · rfl

/-- Claim C5, amended: validation happens once, in the presentation layer.
`handleManualSubmit` rejects, with a validation error and without invoking
the engine (so the saved set is unchanged), every filled-in input that is
not exactly `numbersPerGame` distinct values in `[1, totalNumbers]`; the
engine function applies whatever numbers it is given. -/
theorem manualValidation_presentation_only (config : GameConfig) (S : SavedGameSet)
    (mns : List Nat) (now : String)
    (hlen : mns.length = config.numbersPerGame)
    (hbad : ¬ (mns.Nodup ∧ ∀ n ∈ mns, 1 ≤ n ∧ n ≤ config.totalNumbers)) :
    submitAndApply config S mns now = S ∧
    ∃ msg, handleManualSubmit config mns = .validationError msg := by
  obtain ⟨msg, hk⟩ := handleManualSubmit_rejects config mns hlen hbad
  constructor
  · unfold submitAndApply
    rw [hk]
  · exact ⟨msg, hk⟩

/-- Claim C5, witness: a six-field Mega-Sena input with a repeated number is
rejected and the saved set kept intact. -/
theorem manualValidation_presentation_only_witness :
    submitAndApply (GAME_CONFIG .megasena) exSetNone [1, 2, 3, 4, 5, 5] "t4" = exSetNone :=
  (manualValidation_presentation_only (GAME_CONFIG .megasena) exSetNone
    [1, 2, 3, 4, 5, 5] "t4" (by decide) (by decide)).1

/-- Claim C6: teimosinha advancement is monotone — a record that is already
checked is returned untouched at its position — and idempotent: on a set
whose records are all checked, `handleCheckTeimosinha` is the identity. -/
theorem advanceTeimosinha_monotone_idempotent :
    (∀ (s : SavedTeimosinhaSet) (look : Nat → Option (List Nat)) (i : Nat)
       (r : TeimosinhaConferenceResult),
       s.conferenceResults.get? i = some r → r.status = .checked →
       (handleCheckTeimosinha s look).conferenceResults.get? i = some r) ∧
    (∀ (s : SavedTeimosinhaSet) (look : Nat → Option (List Nat)),
       (∀ r ∈ s.conferenceResults, r.status = .checked) →
       handleCheckTeimosinha s look = s) := by
  constructor
  · intro s look i r hi hr
    exact advanceResults_checked_get look s.theGame s.conferenceResults i r hi hr
  · intro s look h
    unfold handleCheckTeimosinha
    rw [advanceResults_all_checked look s.theGame s.conferenceResults h]

/-- Claim C6, witness: re-running the check on a fully checked two-contest
teimosinha changes nothing. -/
theorem advanceTeimosinha_monotone_idempotent_witness :
    handleCheckTeimosinha exTeimosinhaDone exLookOnly100 = exTeimosinhaDone :=
  advanceTeimosinha_monotone_idempotent.2 exTeimosinhaDone exLookOnly100 (by decide)

/-- Claim C7: the tier summary maps `k` to `v` exactly when `k` is a prize
tier of the variant, `v` is the number of combinations scoring exactly `k`
hits, and that number is at least one — combinations whose hit count is not
a tier contribute no entry, and no zero-valued entry ever appears. -/
theorem summarizeTiers_lookup_spec (games : List (List Nat)) (W : List Nat)
    (config : GameConfig) (k v : Nat) :
    recordLookup (buildSummary games W config.prizeTiers) k = some v ↔
      (k ∈ config.prizeTiers ∧ v = tierCount W k games ∧ 1 ≤ v) := by
  rw [buildSummary_eq_foldl]
  by_cases hk : k ∈ config.prizeTiers
  · rw [foldl_lookup_none W config.prizeTiers k hk games [] rfl]
    by_cases hc : tierCount W k games = 0
    · rw [if_pos hc]
      constructor
      · intro h
        exact absurd h (by simp)
      · rintro ⟨-, h1, h2⟩
        omega
    · rw [if_neg hc]
      constructor
      · intro h
        injection h with h
        exact ⟨hk, h.symm, by omega⟩
      · rintro ⟨-, rfl, -⟩
        rfl
  · rw [foldl_lookup_notmem W config.prizeTiers k hk games []]
    constructor
    · intro h
      exact absurd h (by simp [recordLookup])
    · rintro ⟨hk₂, -, -⟩
      exact absurd hk₂ hk

/-- Claim C7, witness: one combination matching all six drawn numbers yields
the single entry `6 ↦ 1`, and `9` (not a Mega-Sena tier) has no entry. -/
theorem summarizeTiers_lookup_spec_witness :
    recordLookup (buildSummary [[1, 2, 3, 4, 5, 6]] [1, 2, 3, 4, 5, 6]
      (GAME_CONFIG .megasena).prizeTiers) 6 = some 1 :=
  (summarizeTiers_lookup_spec [[1, 2, 3, 4, 5, 6]] [1, 2, 3, 4, 5, 6]
    (GAME_CONFIG .megasena) 6 1).mpr ⟨by decide, by decide, by decide⟩

/-- Claim C8: `handleUndoManualCheck` removes the conference record exactly
when its provenance is manual, and is the identity (with no error) when the
record is official or absent. -/
theorem undoManualConference_spec :
    (∀ (S : SavedGameSet) (c : ConferenceResult), S.conference = some c →
       c.isManual = true → handleUndoManualCheck S = { S with conference := none }) ∧
    (∀ (S : SavedGameSet) (c : ConferenceResult), S.conference = some c →
       c.isManual = false → handleUndoManualCheck S = S) ∧
    (∀ S : SavedGameSet, S.conference = none → handleUndoManualCheck S = S) := by
  refine ⟨?_, ?_, ?_⟩
  · intro S c hc hm
    unfold handleUndoManualCheck
    rw [hc]
    simp [hm]
  · intro S c hc hm
    unfold handleUndoManualCheck
    rw [hc]
    simp [hm]
  · intro S h
    unfold handleUndoManualCheck
    rw [h]

/-- Claim C8, witness: undo removes a manual record, and is the identity on
an official record and on an absent record. -/
theorem undoManualConference_spec_witness :
    handleUndoManualCheck exSetManual = { exSetManual with conference := none } ∧
    handleUndoManualCheck exSetOfficial = exSetOfficial ∧
    handleUndoManualCheck exSetNone = exSetNone :=
  ⟨undoManualConference_spec.1 exSetManual exManualRecord rfl rfl,
   undoManualConference_spec.2.1 exSetOfficial exOfficialRecord rfl rfl,
   undoManualConference_spec.2.2 exSetNone rfl⟩

/-- Claim C9, counterexample: `handleCheckTeimosinha` copies only the array
of record references, so checking a contest mutates the record object shared
with the caller's original set — the set given to the engine observes the
update in place, contradicting the claim that the input (including nested
per-contest records) is left unmodified. -/
theorem teimosinha_inplace_mutation_cex :
    viewRecords (handleCheckTeimosinhaStore exStore exRefSet exLookOnly100).1 exRefSet ≠
      viewRecords exStore exRefSet ∧
    viewRecords (handleCheckTeimosinhaStore exStore exRefSet exLookOnly100).1 exRefSet =
      [some { contest := 100, status := .checked, winningNumbers := some [1, 2, 3, 9, 10, 11],
              hits := some 3 }] := by
  constructor
  · decide
  · rfl

/-- Claim C9, amended: `performConference` and `handleUndoManualCheck` build
new records, but `handleCheckTeimosinha` returns a set holding the very same
record references as its input and updates newly checked records in place in
the shared heap; records at addresses outside the set, and records already
checked, are left untouched. -/
theorem advanceTeimosinha_sharing_frame :
    (∀ (store : TStore) (s : TeimosinhaSetRef) (look : Nat → Option (List Nat)),
       (handleCheckTeimosinhaStore store s look).2 = s) ∧
    (∀ (store : TStore) (s : TeimosinhaSetRef) (look : Nat → Option (List Nat)) (a : Nat),
       a ∉ s.conferenceResults →
       (handleCheckTeimosinhaStore store s look).1.get? a = store.get? a) ∧
    (∀ (store : TStore) (s : TeimosinhaSetRef) (look : Nat → Option (List Nat))
       (a : Nat) (r : TeimosinhaConferenceResult),
       store.get? a = some r → r.status = .checked →
       (handleCheckTeimosinhaStore store s look).1.get? a = some r) := by
  refine ⟨?_, ?_, ?_⟩
  · intro store s look
    rfl
  · intro store s look a ha
    exact advanceStore_frame look s.theGame s.conferenceResults store a ha
  · intro store s look a r hr hrc
    exact advanceStore_checked_stable look s.theGame s.conferenceResults store a r hr hrc

/-- Claim C9, witness: an address outside the set's reference list is
untouched by the store-level advancement. -/
theorem advanceTeimosinha_sharing_frame_witness :
    (handleCheckTeimosinhaStore exStore exRefSet exLookOnly100).1.get? 5 =
      exStore.get? 5 :=
  advanceTeimosinha_sharing_frame.2.1 exStore exRefSet exLookOnly100 5 (by decide)

/-- Claim C10: every entry of the tier summary of a record produced by
`performConference` has a key among the variant's prize tiers and a value of
at least 1, and the values sum to at most the number of combinations in the
set. -/
theorem conferenceSummary_invariant (S : SavedGameSet) (W : List Nat) (b : Bool)
    (now : String) (c : ConferenceResult)
    (h : (performConference S W b now).conference = some c) :
    (∀ kv ∈ c.summary, kv.1 ∈ (GAME_CONFIG S.gameType).prizeTiers ∧ 1 ≤ kv.2) ∧
    (c.summary.map Prod.snd).sum ≤ S.generatedGames.length := by
  have hrec : c = { summary := buildSummary S.generatedGames W
                      (GAME_CONFIG S.gameType).prizeTiers,
                    winningNumbers := W, checkedAt := now, isManual := b } := by
    injection h with h
    exact h.symm
  subst hrec
  constructor
  · intro kv hkv
    rw [buildSummary_eq_foldl] at hkv
    exact foldl_summary_inv W (GAME_CONFIG S.gameType).prizeTiers S.generatedGames []
      (fun kv hh => absurd hh (List.not_mem_nil kv)) kv hkv
  · show ((buildSummary S.generatedGames W
      (GAME_CONFIG S.gameType).prizeTiers).map Prod.snd).sum ≤ S.generatedGames.length
    rw [buildSummary_eq_foldl, foldl_summary_sum]
    simpa using List.length_filter_le _ S.generatedGames

/-- Claim C10, witness: the summary invariant evaluated on a concrete
conference of the one-combination Mega-Sena set. -/
theorem conferenceSummary_invariant_witness :
    (({ summary := buildSummary exSetNone.generatedGames [1, 2, 3, 4, 5, 6]
          (GAME_CONFIG exSetNone.gameType).prizeTiers,
        winningNumbers := [1, 2, 3, 4, 5, 6], checkedAt := "t3",
        isManual := false } : ConferenceResult).summary.map Prod.snd).sum ≤
      exSetNone.generatedGames.length :=
  (conferenceSummary_invariant exSetNone [1, 2, 3, 4, 5, 6] false "t3" _ rfl).2

end LoterIA
